import Mathlib

set_option maxRecDepth 40000

/-!
Verification of the FROST threshold-signing layer of the schnorrkel `olaf`
module (error surface in `src/olaf/frost/errors.rs`, callers in
`benches/olaf_benchmarks.rs`).

The repository excerpt contains the `FROSTError` enum, its unit tests and the
benchmarks; the implementations of `commit`, `sign` and `aggregate` live
outside the excerpt, so they are modelled here from the specification
(§4.5–§4.7) and each such definition is marked `Modelled from the spec:` in
its doc comment.  The Ristretto255 group is cyclic of prime order `q`; it is
embedded exactly (up to the canonical isomorphism) by representing a point by
its discrete logarithm with respect to the generator, a natural number
reduced mod `q`.  Scalars are natural numbers with explicit reduction mod `q`.
-/

namespace Olaf

/-- The order of the Ristretto255 group (the ed25519 scalar-field order). -/
def qOrder : Nat := 7237005577332262213973186563042994240857116359379907606001950938285454250989

/-- Scalar addition mod `q`. -/
def sAdd (a b : Nat) : Nat := (a + b) % qOrder

/-- Scalar multiplication mod `q`. -/
def sMul (a b : Nat) : Nat := (a * b) % qOrder

/-- Scalar subtraction mod `q`. -/
def sSub (a b : Nat) : Nat := (a % qOrder + (qOrder - b % qOrder)) % qOrder

/-- Fuel-driven square-and-multiply modular exponentiation: `powMod f b e m`
computes `b ^ e % m` whenever `f` bounds the binary length of `e`. -/
def powMod : Nat → Nat → Nat → Nat → Nat
  | 0, _, _, m => 1 % m
  | fuel + 1, b, e, m =>
    if e = 0 then 1 % m
    else
      let h := powMod fuel ((b * b) % m) (e / 2) m
      if e % 2 = 1 then (h * b) % m else h

/-- Modular inverse mod the prime `q`, by Fermat: `a⁻¹ = a ^ (q - 2) mod q`. -/
def sInv (a : Nat) : Nat := powMod 300 (a % qOrder) (qOrder - 2) qOrder

/-- Byte strings (contexts, messages, transcript data) as lists of naturals. -/
abbrev Bytes := List Nat

/-- A Ristretto255 point, represented by its discrete logarithm with respect
to the generator, reduced mod `q`.  This representation is exact: the group
is cyclic of prime order `q`, so `log` is a group isomorphism onto `Z_q`. -/
structure Point where
  log : Nat
  deriving DecidableEq, Repr

/-- The group identity `O`. -/
def Point.identity : Point := ⟨0⟩

/-- The group generator `G`. -/
def Point.generator : Point := ⟨1⟩

/-- Point addition. -/
def Point.add (p r : Point) : Point := ⟨(p.log + r.log) % qOrder⟩

/-- Scalar multiplication `s · P` (in exponent form, `g^x ↦ x`). -/
def Point.smul (s : Nat) (p : Point) : Point := ⟨(s * p.log) % qOrder⟩

/-- Exponentiation `g^s` of the generator by a scalar `s`. -/
def gpow (s : Nat) : Point := ⟨s % qOrder⟩

/-- A verifying share `g^{s_i}` (newtype `VerifyingShare` in the source,
collapsed to its underlying point). -/
abbrev VerifyingShare := Point

/-- The pair of nonce commitments `(D, E) = (g^d, g^e)` published in FROST
round 1 (`SigningCommitments` in `frost/types.rs`; the `NonceCommitment`
newtype is collapsed to its underlying point). -/
structure SigningCommitments where
  «hiding» : Point
  binding : Point
  deriving DecidableEq, Repr

/-- Modelled from the spec: the DKG error taxonomy of §7 ("DKG:
`InvalidParameters`, `InvalidRecipientSet`, `InvalidProofOfPossession`,
`InvalidTransportSignature`, `ShareDecryptionFailure`, `InconsistentShare`,
`UnknownSelf`").  The `SPPError` type itself is declared outside the
excerpt (`olaf/simplpedpop/errors.rs`). -/
inductive SPPError where
  | invalidParameters
  | invalidRecipientSet
  | invalidProofOfPossession
  | invalidTransportSignature
  | shareDecryptionFailure
  | inconsistentShare
  | unknownSelf
  deriving DecidableEq, Repr

/-- The external single-party Schnorr error type (`SignatureError` of the
crate root, an external collaborator per §6), modelled minimally with two of
its variants; only its existence as a payload matters here. -/
inductive SignatureError where
  | equationFalse
  | pointDecompressionError
  deriving DecidableEq, Repr

/-- The external `core::array::TryFromSliceError`, a unit-like opaque error. -/
structure TryFromSliceError where
  deriving DecidableEq, Repr

/-- The FROST error enum, mirroring `FROSTError` of
`src/olaf/frost/errors.rs` lines 16–51 constructor by constructor,
payloads included. -/
inductive FROSTError where
  | invalidNumberOfSigningCommitments
  | missingOwnSigningCommitment
  | identitySigningCommitment
  | incorrectNumberOfVerifyingShares
  | signatureShareDeserializationError
  | invalidSignatureShare (culprit : List VerifyingShare)
  | invalidOwnVerifyingShare
  | invalidSignature (e : SignatureError)
  | deserializationError (e : TryFromSliceError)
  | invalidNonceCommitment
  | sppOutputDeserializationError (e : SPPError)
  | invalidNumberOfSigningPackages
  | mismatchedCommonData
  | mismatchedSignatureSharesAndSigningCommitments
  | emptySigningPackages
  deriving DecidableEq, Repr

/-- The payload-free kinds of `FROSTError`, one per enum variant. -/
inductive FROSTErrorKind where
  | invalidNumberOfSigningCommitments
  | missingOwnSigningCommitment
  | identitySigningCommitment
  | incorrectNumberOfVerifyingShares
  | signatureShareDeserializationError
  | invalidSignatureShare
  | invalidOwnVerifyingShare
  | invalidSignature
  | deserializationError
  | invalidNonceCommitment
  | sppOutputDeserializationError
  | invalidNumberOfSigningPackages
  | mismatchedCommonData
  | mismatchedSignatureSharesAndSigningCommitments
  | emptySigningPackages
  deriving DecidableEq, Repr

/-- The kind (payload-erased constructor) of a `FROSTError`. -/
def FROSTError.kind : FROSTError → FROSTErrorKind
  | .invalidNumberOfSigningCommitments => .invalidNumberOfSigningCommitments
  | .missingOwnSigningCommitment => .missingOwnSigningCommitment
  | .identitySigningCommitment => .identitySigningCommitment
  | .incorrectNumberOfVerifyingShares => .incorrectNumberOfVerifyingShares
  | .signatureShareDeserializationError => .signatureShareDeserializationError
  | .invalidSignatureShare _ => .invalidSignatureShare
  | .invalidOwnVerifyingShare => .invalidOwnVerifyingShare
  | .invalidSignature _ => .invalidSignature
  | .deserializationError _ => .deserializationError
  | .invalidNonceCommitment => .invalidNonceCommitment
  | .sppOutputDeserializationError _ => .sppOutputDeserializationError
  | .invalidNumberOfSigningPackages => .invalidNumberOfSigningPackages
  | .mismatchedCommonData => .mismatchedCommonData
  | .mismatchedSignatureSharesAndSigningCommitments =>
      .mismatchedSignatureSharesAndSigningCommitments
  | .emptySigningPackages => .emptySigningPackages

/-- Whether a `FROSTError` variant carries a payload, read off the enum in
`errors.rs`: exactly `InvalidSignatureShare { culprit }`,
`InvalidSignature(SignatureError)`, `DeserializationError(TryFromSliceError)`
and `SPPOutputDeserializationError(SPPError)` have constructor arguments. -/
def FROSTError.hasPayload : FROSTError → Bool
  | .invalidSignatureShare _ => true
  | .invalidSignature _ => true
  | .deserializationError _ => true
  | .sppOutputDeserializationError _ => true
  | _ => false

/-- DKG parameters (`Parameters` of `olaf/simplpedpop`): participant count
`n` and threshold `t`. -/
structure Parameters where
  participants : Nat
  threshold : Nat
  deriving DecidableEq, Repr

/-- The per-participant DKG output (§3): group public key, the ordered
`(identifier, verifying_share)` table, and the parameters. -/
structure SPPOutput where
  group_public_key : Point
  verifying_keys : List (Nat × Point)
  parameters : Parameters
  deriving DecidableEq, Repr

/-- The retained nonce pair `(d, e)` of FROST round 1 (`SigningNonces` in the
source, `NoncePair` in the spec): hiding and binding nonce scalars. -/
structure SigningNonces where
  «hiding» : Nat
  binding : Nat
  deriving DecidableEq, Repr

/-- A partial-signature scalar `z_i` (field `share` as in the source:
`signer_data.signature_share.share`). -/
structure SignatureShare where
  share : Nat
  deriving DecidableEq, Repr

/-- Per-signer data of a signing package (§3): identifier, signature share
and verifying share. -/
structure SignerData where
  identifier : Nat
  signature_share : SignatureShare
  verifying_share : Point
  deriving DecidableEq, Repr

/-- Data common to all signing packages of a session (§3): context, message
and the ordered commitment vector. -/
structure CommonData where
  context : Bytes
  message : Bytes
  signing_commitments : List SigningCommitments
  deriving DecidableEq, Repr

/-- A FROST round-2 signing package: `common_data` plus `signer_data`. -/
structure SigningPackage where
  common_data : CommonData
  signer_data : SignerData
  deriving DecidableEq, Repr

/-- A transcript, modelled as the stream of absorbed naturals. -/
abbrev Transcript := List Nat

/-- ASCII bytes of the domain label `OLAF-FROST` (§6). -/
def frostLabel : Bytes := [79, 76, 65, 70, 45, 70, 82, 79, 83, 84]

/-- ASCII bytes of the domain label `OLAF-FROST-BINDING` (§6). -/
def bindingLabel : Bytes :=
  [79, 76, 65, 70, 45, 70, 82, 79, 83, 84, 45, 66, 73, 78, 68, 73, 78, 71]

/-- ASCII bytes of the domain label `OLAF-FROST-CHALLENGE` (§6). -/
def challengeLabel : Bytes :=
  [79, 76, 65, 70, 45, 70, 82, 79, 83, 84, 45, 67, 72, 65, 76, 76, 69, 78, 71, 69]

/-- Modelled from the spec: the transcript primitive is an external
collaborator (§6); squeezing a challenge scalar is modelled as a concrete
iterated-multiply hash of the absorbed stream, reduced mod `q`.  No verified
property depends on the hash function itself. -/
def challengeScalar (t : Transcript) : Nat :=
  t.foldl (fun a b => (a * 65537 + b + 1) % qOrder) 0

/-- Insertion step for sorting `(identifier, commitment)` pairs by
identifier. -/
def insertTriple (x : Nat × SigningCommitments) :
    List (Nat × SigningCommitments) → List (Nat × SigningCommitments)
  | [] => [x]
  | y :: ys => if x.1 ≤ y.1 then x :: y :: ys else y :: insertTriple x ys

/-- Insertion sort of `(identifier, commitment)` pairs by identifier, for the
sorted-triples absorption of §4.6. -/
def sortTriples : List (Nat × SigningCommitments) → List (Nat × SigningCommitments)
  | [] => []
  | x :: xs => insertTriple x (sortTriples xs)

/-- Modelled from the spec: the §4.6 base transcript, seeded with
`OLAF-FROST`, the group public key, context, message, and the canonical
encoding of the sorted `(identifier, D_i, E_i)` triples. -/
def signTranscript (gpk : Point) (context message : Bytes)
    (triples : List (Nat × SigningCommitments)) : Transcript :=
  frostLabel ++ [gpk.log] ++ (context.length :: context) ++
    (message.length :: message) ++
    ((sortTriples triples).map
      (fun ic => [ic.1, ic.2.hiding.log, ic.2.binding.log])).flatten

/-- Modelled from the spec: the per-signer binding factor
`ρ_i = transcript.clone().append(binding label, id_i).challenge_scalar`
(§4.6). -/
def bindingFactor (base : Transcript) (id : Nat) : Nat :=
  challengeScalar (base ++ bindingLabel ++ [id])

/-- Modelled from the spec: the group commitment
`R = Σ_i (D_i + ρ_i · E_i)` (§4.6). -/
def groupCommitment (base : Transcript) (triples : List (Nat × SigningCommitments)) : Point :=
  triples.foldl
    (fun acc ic =>
      acc.add (ic.2.hiding.add (Point.smul (bindingFactor base ic.1) ic.2.binding)))
    Point.identity

/-- Modelled from the spec: the Fiat–Shamir challenge
`c = H(OLAF-FROST-CHALLENGE, R, group_public_key, context, message)`
(§4.6). -/
def challengeC (R gpk : Point) (context message : Bytes) : Nat :=
  challengeScalar (challengeLabel ++ [R.log, gpk.log] ++
    (context.length :: context) ++ (message.length :: message))

/-- Modelled from the spec: the Lagrange coefficient at 0 over the signer
identifier set, `λ_me = Π_{j ≠ me} id_j / (id_j − id_me)` (§4.6). -/
def lagrange (ids : List Nat) (me : Nat) : Nat :=
  let others := ids.filter (fun j => j != me)
  sMul (others.foldl (fun a j => sMul a j) 1)
    (sInv (others.foldl (fun a j => sMul a (sSub j me)) 1))

/-- Zero draws of the nonce sampler are re-drawn; modelled as replacing a
zero scalar by 1, preserving totality and the nonzero guarantee of §4.5. -/
def nonzeroScalar (x : Nat) : Nat := if x % qOrder = 0 then 1 else x % qOrder

/-- Modelled from the spec: FROST round 1, `commit(rng) →
(NoncePair, SigningCommitments)` (§4.5).  Samples `(d, e)` from the RNG
stream (retry-on-zero modelled by `nonzeroScalar`) and returns the nonce
pair together with `(g^d, g^e)`.  The codomain is a plain pair, not a
`Result`: commit is infallible, as in the callers
(`errors.rs` line 129, `olaf_benchmarks.rs` lines 74 and 81). -/
def commit (rng : Nat → Nat) : SigningNonces × SigningCommitments :=
  let d := nonzeroScalar (rng 0)
  let e := nonzeroScalar (rng 1)
  (⟨d, e⟩, ⟨gpow d, gpow e⟩)

/-- Whether a commitment entry equals `(g^d, g^e)` for our retained
nonces (§4.6 precondition 3). -/
def ownCommitment (nonces : SigningNonces) (cm : SigningCommitments) : Bool :=
  cm.hiding == gpow nonces.hiding && cm.binding == gpow nonces.binding

/-- Whether a commitment entry has an identity component (§4.6
precondition 4). -/
def identityCommitment (cm : SigningCommitments) : Bool :=
  cm.hiding == Point.identity || cm.binding == Point.identity

/-- Modelled from the spec: FROST round 2, `sign` (§4.6).  `sk` is the
secret share held by the caller's `SigningKeypair`; the nonce pair is a
borrowed argument, exactly as in the callers (`&all_signing_nonces[i]` in
both the tests and the benchmarks).  Preconditions are checked in the §4.6
order, then the partial signature `z = d + e·ρ + λ·s·c` is emitted inside a
`SigningPackage`.  The excerpt does not pin how commitment entries are
associated with identifiers; this is modelled positionally against
`verifying_keys`, the association exercised by the tests (all `n`
participants commit, in table order).  The vanishing-probability re-derivation
when `R = O` (§4.6) is not modelled. -/
def sign (sk : Nat) (context message : Bytes) (spp : SPPOutput)
    (signing_commitments : List SigningCommitments) (signing_nonces : SigningNonces) :
    Except FROSTError SigningPackage :=
  if signing_commitments.length < spp.parameters.threshold then
    .error .invalidNumberOfSigningCommitments
  else if spp.verifying_keys.length ≠ spp.parameters.participants then
    .error .incorrectNumberOfVerifyingShares
  else if ¬ signing_commitments.any (ownCommitment signing_nonces) then
    .error .missingOwnSigningCommitment
  else if signing_commitments.any identityCommitment then
    .error .identitySigningCommitment
  else if ¬ spp.verifying_keys.any (fun kv => kv.2 == gpow sk) then
    .error .invalidOwnVerifyingShare
  else
    let ids := (spp.verifying_keys.map Prod.fst).take signing_commitments.length
    let idx := signing_commitments.findIdx (ownCommitment signing_nonces)
    let idMe := ids.getD idx 0
    let triples := ids.zip signing_commitments
    let base := signTranscript spp.group_public_key context message triples
    let rhoMe := bindingFactor base idMe
    let lamMe := lagrange ids idMe
    let R := groupCommitment base triples
    let c := challengeC R spp.group_public_key context message
    let z := sAdd signing_nonces.hiding
      (sAdd (sMul signing_nonces.binding rhoMe) (sMul lamMe (sMul (sk % qOrder) c)))
    .ok
      { common_data := { context := context, message := message,
                         signing_commitments := signing_commitments },
        signer_data := { identifier := idMe, signature_share := ⟨z⟩,
                         verifying_share := gpow sk } }

/-- Modelled from the spec: `aggregate` receives only the signing packages
(the test API, `aggregate(&signing_packages)`), so the group public key it
absorbs is reconstructed by Lagrange interpolation over the packages'
verifying shares, per the §8 invariant that interpolation at 0 of the shares
yields `s` with `g^s = group_public_key`. -/
def groupPublicKeyFromShares (ids : List Nat) (signing_packages : List SigningPackage) : Point :=
  signing_packages.foldl
    (fun acc p =>
      acc.add (Point.smul (lagrange ids p.signer_data.identifier)
        p.signer_data.verifying_share))
    Point.identity

/-- Modelled from the spec: the §4.7 step-6 per-signer verification
`g^{z_i} ?= D_i + ρ_i · E_i + (λ_i · c) · verifying_share_i`, where the
binding factor is squeezed from the base transcript at the signer's
identifier and `λ_i` is the Lagrange coefficient over the package
identifier set. -/
def shareCheck (ids : List Nat) (base : Transcript) (c : Nat)
    (pc : SigningPackage × SigningCommitments) : Bool :=
  let id := pc.1.signer_data.identifier
  let rho := bindingFactor base id
  let lam := lagrange ids id
  gpow pc.1.signer_data.signature_share.share ==
    pc.2.hiding.add ((Point.smul rho pc.2.binding).add
      (Point.smul (sMul lam c) pc.1.signer_data.verifying_share))

/-- The ordered culprit list of §4.7 step 6: the verifying shares of the
packages whose per-signer check fails, in input-package order. -/
def culpritsOf (ids : List Nat) (base : Transcript) (c : Nat)
    (signing_packages : List SigningPackage)
    (commitments : List SigningCommitments) : List VerifyingShare :=
  ((signing_packages.zip commitments).filter (fun pc => ¬ shareCheck ids base c pc)).map
    (fun pc => pc.1.signer_data.verifying_share)

/-- The identifier sequence of a package list, in input order. -/
def aggIds (signing_packages : List SigningPackage) : List Nat :=
  signing_packages.map (fun p => p.signer_data.identifier)

/-- The base transcript recomputed by the aggregator (§4.7 step 5), exactly
as a signer would build it. -/
def aggBase (signing_packages : List SigningPackage) (cd : CommonData) : Transcript :=
  signTranscript (groupPublicKeyFromShares (aggIds signing_packages) signing_packages)
    cd.context cd.message ((aggIds signing_packages).zip cd.signing_commitments)

/-- The group commitment `R` recomputed by the aggregator (§4.7 step 5). -/
def aggR (signing_packages : List SigningPackage) (cd : CommonData) : Point :=
  groupCommitment (aggBase signing_packages cd)
    ((aggIds signing_packages).zip cd.signing_commitments)

/-- The challenge `c` recomputed by the aggregator (§4.7 step 5). -/
def aggChallenge (signing_packages : List SigningPackage) (cd : CommonData) : Nat :=
  challengeC (aggR signing_packages cd)
    (groupPublicKeyFromShares (aggIds signing_packages) signing_packages)
    cd.context cd.message

/-- The ordered culprit list computed during aggregation (§4.7 step 6). -/
def aggCulprits (signing_packages : List SigningPackage) (cd : CommonData) :
    List VerifyingShare :=
  culpritsOf (aggIds signing_packages) (aggBase signing_packages cd)
    (aggChallenge signing_packages cd) signing_packages cd.signing_commitments

/-- The aggregated response `z = Σ z_i` (§4.7 step 7). -/
def sumShares (signing_packages : List SigningPackage) : Nat :=
  signing_packages.foldl (fun a p => sAdd a p.signer_data.signature_share.share) 0

/-- Modelled from the spec: FROST aggregation (§4.7).  Validation in spec
order — (1) non-empty else `EmptySigningPackages`; (2) at least `t` packages
(`t` derived from the first package's implied threshold, the length of its
commitment vector) else `InvalidNumberOfSigningPackages`; (3) identical
`common_data` across packages else `MismatchedCommonData`; (4) package count
equals the shared commitment count else
`MismatchedSignatureSharesAndSigningCommitments`; then (5–6) recompute the
transcript, binding factors, `R` and `c`, verify every partial signature,
and return `InvalidSignatureShare` with the ordered culprit list if any
check fails; (7) otherwise return `(R, Σ z_i)`. -/
def aggregate (signing_packages : List SigningPackage) :
    Except FROSTError (Point × Nat) :=
  match signing_packages with
  | [] => .error .emptySigningPackages
  | p₀ :: _ =>
    let cd := p₀.common_data
    if signing_packages.length < cd.signing_commitments.length then
      .error .invalidNumberOfSigningPackages
    else if ¬ signing_packages.all (fun p => p.common_data == cd) then
      .error .mismatchedCommonData
    else if signing_packages.length ≠ cd.signing_commitments.length then
      .error .mismatchedSignatureSharesAndSigningCommitments
    else
      let culprits := aggCulprits signing_packages cd
      if culprits.isEmpty then
        .ok (aggR signing_packages cd, sumShares signing_packages)
      else
        .error (.invalidSignatureShare culprits)

/-- Concrete witness scenario, `n = 2`, `t = 2`: identifiers 1 and 2, secret
shares `s_1 = 3` and `s_2 = 5` (the shares of `f(x) = 1 + 2x`), so the group
public key is `g^{f(0)} = g^1` and the verifying-key table is
`[(1, g^3), (2, g^5)]`. -/
def sppW : SPPOutput :=
  { group_public_key := gpow 1, verifying_keys := [(1, gpow 3), (2, gpow 5)],
    parameters := { participants := 2, threshold := 2 } }

/-- Witness secret share of signer 1. -/
def skW : Nat := 3

/-- Witness secret share of signer 2. -/
def sk2W : Nat := 5

/-- Witness nonce pair of signer 1: `(d, e) = (4, 6)`. -/
def noncesW : SigningNonces := ⟨4, 6⟩

/-- Witness nonce pair of signer 2: `(d, e) = (7, 9)`. -/
def nonces2W : SigningNonces := ⟨7, 9⟩

/-- Witness commitment vector: `[(g^4, g^6), (g^7, g^9)]`. -/
def commsW : List SigningCommitments := [⟨gpow 4, gpow 6⟩, ⟨gpow 7, gpow 9⟩]

/-- Witness context bytes. -/
def ctxW : Bytes := [99]

/-- Witness message bytes. -/
def msgW : Bytes := [109]

/-- Fallback package for extracting a `sign` result. -/
def defaultPkg : SigningPackage :=
  { common_data := { context := [], message := [], signing_commitments := [] },
    signer_data := { identifier := 0, signature_share := ⟨0⟩,
                     verifying_share := gpow 0 } }

/-- Signer 1's honest signing package in the witness scenario. -/
def pkg1 : SigningPackage :=
  (sign skW ctxW msgW sppW commsW noncesW).toOption.getD defaultPkg

/-- Signer 2's honest signing package in the witness scenario. -/
def pkg2 : SigningPackage :=
  (sign sk2W ctxW msgW sppW commsW nonces2W).toOption.getD defaultPkg

/-- Adds 1 to a package's signature share, as the `test_invalid_signature_share`
test does (`signature_share.share += Scalar::ONE`). -/
def tamper (p : SigningPackage) : SigningPackage :=
  { p with signer_data := { p.signer_data with
      signature_share := ⟨sAdd p.signer_data.signature_share.share 1⟩ } }

/-- Signer 2's package with its context mutated, as the
`test_mismatched_common_data_error` test mutates one package's context. -/
def pkg2badctx : SigningPackage :=
  { pkg2 with common_data := { pkg2.common_data with context := [105] } }

/-- The round-2 loop of `benchmark_frost` (`olaf_benchmarks.rs` lines
90–103): `k` successive `sign` invocations, every one passing the same
borrowed nonce pair `&all_signing_nonces[0]`. -/
def benchRound2 (k : Nat) : List (Except FROSTError SigningPackage) :=
  (List.range k).map (fun _ => sign skW ctxW msgW sppW commsW noncesW)

/-- Witness commitment vector with the second entry's hiding component set
to the identity, as in `test_identity_signing_commitment_error`
(`signing_commitments[1].hiding = O`). -/
def commsIdW : List SigningCommitments := [⟨gpow 4, gpow 6⟩, ⟨Point.identity, gpow 9⟩]

/-- Witness commitment vector with signer 1's own entry replaced by a fresh
pair, as in `test_missing_own_signing_commitment_error`. -/
def commsFreshW : List SigningCommitments := [⟨gpow 11, gpow 12⟩, ⟨gpow 7, gpow 9⟩]

deriving instance DecidableEq for Except

/-- Helper: the commitments produced by `commit` are never the identity,
because a zero nonce draw is replaced by a nonzero one. -/
theorem gpow_nonzeroScalar_ne_identity (x : Nat) :
    gpow (nonzeroScalar x) ≠ Point.identity := by
  unfold nonzeroScalar gpow Point.identity
  split
  · simp only [ne_eq, Point.mk.injEq]
    decide
  · rename_i hx
    simp only [ne_eq, Point.mk.injEq, Nat.mod_mod_of_dvd _ dvd_rfl]
    exact hx

/-- Claim C4: aggregating the empty sequence of signing packages returns
`EmptySigningPackages`, and this is the only input that does — the emptiness
check is the first case of `aggregate`, preceding every other aggregation
validation, and no later validation path produces this error. -/
theorem aggregate_empty_signing_packages (signing_packages : List SigningPackage) :
    aggregate signing_packages = .error .emptySigningPackages ↔
      signing_packages = [] := by
  cases signing_packages with
  | nil => simp [aggregate]
  | cons p ps =>
    simp only [List.cons_ne_nil, iff_false]
    intro h
    simp only [aggregate] at h
    split at h
    · exact FROSTError.noConfusion (Except.error.inj h)
    · split at h
      · exact FROSTError.noConfusion (Except.error.inj h)
      · split at h
        · exact FROSTError.noConfusion (Except.error.inj h)
        · split at h
          · exact Except.noConfusion h
          · exact FROSTError.noConfusion (Except.error.inj h)

/-- Claim C5: a non-empty package sequence shorter than the threshold `t`
(derived, per the model, from the first package's implied threshold — the
length of its commitment vector) is rejected with
`InvalidNumberOfSigningPackages`. -/
theorem aggregate_invalid_number_of_signing_packages
    (p : SigningPackage) (ps : List SigningPackage)
    (h : (p :: ps).length < p.common_data.signing_commitments.length) :
    aggregate (p :: ps) = .error .invalidNumberOfSigningPackages := by
  simp only [aggregate]
  rw [if_pos h]

/-- Claim C5, witness: a single honest package against a two-entry
commitment vector (so `1 < t = 2`) aggregates to
`InvalidNumberOfSigningPackages`. -/
theorem aggregate_invalid_number_of_signing_packages_witness :
    ([pkg1].length < pkg1.common_data.signing_commitments.length) ∧
    aggregate [pkg1] = .error .invalidNumberOfSigningPackages :=
  ⟨by decide, aggregate_invalid_number_of_signing_packages pkg1 [] (by decide)⟩

/-- Claim C6: at least `t` packages that do not all share identical
`common_data` are rejected with `MismatchedCommonData`. -/
theorem aggregate_mismatched_common_data
    (p : SigningPackage) (ps : List SigningPackage)
    (h1 : p.common_data.signing_commitments.length ≤ (p :: ps).length)
    (h2 : ¬ ∀ x ∈ p :: ps, x.common_data = p.common_data) :
    aggregate (p :: ps) = .error .mismatchedCommonData := by
  have hlt : ¬ (p :: ps).length < p.common_data.signing_commitments.length :=
    not_lt.mpr h1
  have hc2 : ¬ ((p :: ps).all (fun x => x.common_data == p.common_data) = true) := by
    intro hall
    exact h2 (fun x hx => by simpa using List.all_eq_true.mp hall x hx)
  simp only [aggregate]
  rw [if_neg hlt, if_pos hc2]

/-- Claim C6, witness: mutating the second package's context (the
`test_mismatched_common_data_error` scenario) yields `MismatchedCommonData`. -/
theorem aggregate_mismatched_common_data_witness :
    (pkg1.common_data.signing_commitments.length ≤ [pkg1, pkg2badctx].length) ∧
    (¬ ∀ x ∈ [pkg1, pkg2badctx], x.common_data = pkg1.common_data) ∧
    aggregate [pkg1, pkg2badctx] = .error .mismatchedCommonData :=
  ⟨by decide, by decide,
    aggregate_mismatched_common_data pkg1 [pkg2badctx] (by decide) (by decide)⟩

/-- Claim C7: at least `t` packages with identical `common_data` whose count
differs from the length of the shared commitment vector are rejected with
`MismatchedSignatureSharesAndSigningCommitments`. -/
theorem aggregate_mismatched_shares_and_commitments
    (p : SigningPackage) (ps : List SigningPackage)
    (h1 : p.common_data.signing_commitments.length ≤ (p :: ps).length)
    (h2 : ∀ x ∈ p :: ps, x.common_data = p.common_data)
    (h3 : (p :: ps).length ≠ p.common_data.signing_commitments.length) :
    aggregate (p :: ps) = .error .mismatchedSignatureSharesAndSigningCommitments := by
  have hlt : ¬ (p :: ps).length < p.common_data.signing_commitments.length :=
    not_lt.mpr h1
  have hall : (p :: ps).all (fun x => x.common_data == p.common_data) = true :=
    List.all_eq_true.mpr (fun x hx => by simpa using h2 x hx)
  simp only [aggregate]
  rw [if_neg hlt, if_neg (not_not_intro hall), if_pos h3]

/-- Claim C7, witness: three copies of one honest package against its
two-entry commitment vector (count 3 ≠ 2) aggregate to
`MismatchedSignatureSharesAndSigningCommitments`. -/
theorem aggregate_mismatched_shares_and_commitments_witness :
    (pkg1.common_data.signing_commitments.length ≤ [pkg1, pkg1, pkg1].length) ∧
    (∀ x ∈ [pkg1, pkg1, pkg1], x.common_data = pkg1.common_data) ∧
    ([pkg1, pkg1, pkg1].length ≠ pkg1.common_data.signing_commitments.length) ∧
    aggregate [pkg1, pkg1, pkg1] = .error .mismatchedSignatureSharesAndSigningCommitments :=
  ⟨by decide, by decide, by decide,
    aggregate_mismatched_shares_and_commitments pkg1 [pkg1, pkg1]
      (by decide) (by decide) (by decide)⟩

/-- Claim C2: with at least `t` packages sharing identical `common_data` and
matching commitment count, if the per-signer check
`g^{z_i} = D_i + ρ_i·E_i + (λ_i·c)·verifying_share_i` (the `shareCheck`
inside `aggCulprits`) fails for a non-empty set of signers, `aggregate`
returns `InvalidSignatureShare` whose culprit field is exactly the verifying
shares of the failing signers in input-package order. -/
theorem aggregate_invalid_signature_share
    (p : SigningPackage) (ps : List SigningPackage)
    (h1 : p.common_data.signing_commitments.length ≤ (p :: ps).length)
    (h2 : ∀ x ∈ p :: ps, x.common_data = p.common_data)
    (h3 : (p :: ps).length = p.common_data.signing_commitments.length)
    (h4 : aggCulprits (p :: ps) p.common_data ≠ []) :
    aggregate (p :: ps) =
      .error (.invalidSignatureShare (aggCulprits (p :: ps) p.common_data)) := by
  have hlt : ¬ (p :: ps).length < p.common_data.signing_commitments.length :=
    not_lt.mpr h1
  have hall : (p :: ps).all (fun x => x.common_data == p.common_data) = true :=
    List.all_eq_true.mpr (fun x hx => by simpa using h2 x hx)
  have hne : ¬ ((aggCulprits (p :: ps) p.common_data).isEmpty = true) := by
    intro ht
    exact h4 (List.isEmpty_iff.mp ht)
  simp only [aggregate]
  rw [if_neg hlt, if_neg (not_not_intro hall), if_neg (not_not_intro h3), if_neg hne]

/-- Claim C2, witness: the `n = 2`, `t = 2` tampered-shares scenario of
`test_invalid_signature_share` — both honest packages get 1 added to their
signature share, and `aggregate` reports exactly the two verifying shares
`[g^3, g^5]` in input order. -/
theorem aggregate_invalid_signature_share_witness :
    (aggCulprits [tamper pkg1, tamper pkg2] (tamper pkg1).common_data ≠ []) ∧
    aggregate [tamper pkg1, tamper pkg2] =
      .error (.invalidSignatureShare [gpow 3, gpow 5]) :=
  ⟨by decide, by
    rw [aggregate_invalid_signature_share (tamper pkg1) [tamper pkg2]
      (by decide) (by decide) (by decide) (by decide)]
    decide⟩

/-- Claim C8: if the count and verifying-share preconditions hold and the
caller's own commitment is present, but some entry of the commitment vector
has an identity hiding or binding component, `sign` returns
`IdentitySigningCommitment`. -/
theorem sign_identity_signing_commitment
    (sk : Nat) (ctx msg : Bytes) (spp : SPPOutput)
    (cms : List SigningCommitments) (np : SigningNonces)
    (h1 : spp.parameters.threshold ≤ cms.length)
    (h2 : spp.verifying_keys.length = spp.parameters.participants)
    (h3 : cms.any (ownCommitment np) = true)
    (h4 : cms.any identityCommitment = true) :
    sign sk ctx msg spp cms np = .error .identitySigningCommitment := by
  have hlt : ¬ cms.length < spp.parameters.threshold := not_lt.mpr h1
  simp [sign, hlt, h2, h3, h4]

/-- Claim C8, witness: the `test_identity_signing_commitment_error` scenario
— the second commitment's hiding component is the identity while signer 1's
own entry is intact, and `sign` rejects with `IdentitySigningCommitment`. -/
theorem sign_identity_signing_commitment_witness :
    (sppW.parameters.threshold ≤ commsIdW.length) ∧
    (sppW.verifying_keys.length = sppW.parameters.participants) ∧
    (commsIdW.any (ownCommitment noncesW) = true) ∧
    (commsIdW.any identityCommitment = true) ∧
    sign skW ctxW msgW sppW commsIdW noncesW = .error .identitySigningCommitment :=
  ⟨by decide, by decide, by decide, by decide,
    sign_identity_signing_commitment skW ctxW msgW sppW commsIdW noncesW
      (by decide) (by decide) (by decide) (by decide)⟩

/-- Claim C9: if the count preconditions hold but no entry of the commitment
vector equals `(g^d, g^e)` for the caller's retained nonce pair, `sign`
returns `MissingOwnSigningCommitment`. -/
theorem sign_missing_own_signing_commitment
    (sk : Nat) (ctx msg : Bytes) (spp : SPPOutput)
    (cms : List SigningCommitments) (np : SigningNonces)
    (h1 : spp.parameters.threshold ≤ cms.length)
    (h2 : spp.verifying_keys.length = spp.parameters.participants)
    (h3 : cms.any (ownCommitment np) = false) :
    sign sk ctx msg spp cms np = .error .missingOwnSigningCommitment := by
  have hlt : ¬ cms.length < spp.parameters.threshold := not_lt.mpr h1
  simp [sign, hlt, h2, h3]

/-- Claim C9, witness: the `test_missing_own_signing_commitment_error`
scenario — signer 1's own entry is replaced by a fresh pair `(g^11, g^12)`,
and `sign` rejects with `MissingOwnSigningCommitment`. -/
theorem sign_missing_own_signing_commitment_witness :
    (sppW.parameters.threshold ≤ commsFreshW.length) ∧
    (sppW.verifying_keys.length = sppW.parameters.participants) ∧
    (commsFreshW.any (ownCommitment noncesW) = false) ∧
    sign skW ctxW msgW sppW commsFreshW noncesW = .error .missingOwnSigningCommitment :=
  ⟨by decide, by decide, by decide,
    sign_missing_own_signing_commitment skW ctxW msgW sppW commsFreshW noncesW
      (by decide) (by decide) (by decide)⟩

/-- Claim C10: `commit` is infallible — its codomain is a plain
`(NoncePair, SigningCommitments)` pair, so for every RNG stream it returns a
tuple directly (never an error), and neither returned commitment is the
identity. -/
theorem commit_infallible (rng : Nat → Nat) :
    ∃ nonces cs, commit rng = (nonces, cs) ∧
      cs.hiding ≠ Point.identity ∧ cs.binding ≠ Point.identity :=
  ⟨(commit rng).1, (commit rng).2, rfl,
    gpow_nonzeroScalar_ne_identity (rng 0), gpow_nonzeroScalar_ne_identity (rng 1)⟩

/-- Claim C3, counterexample: `SPPOutputDeserializationError` also carries a
structured payload — it wraps an `SPPError` value, and two distinct payloads
give two distinct errors of that same (non-`InvalidSignatureShare`) kind. -/
theorem frost_error_payload_counterexample :
    (FROSTError.sppOutputDeserializationError SPPError.invalidParameters).hasPayload = true ∧
    (FROSTError.sppOutputDeserializationError SPPError.invalidParameters).kind ≠
      FROSTErrorKind.invalidSignatureShare ∧
    FROSTError.sppOutputDeserializationError SPPError.invalidParameters ≠
      FROSTError.sppOutputDeserializationError SPPError.invalidRecipientSet := by
  decide

/-- Claim C3, amended: a `FROSTError` carries a payload exactly when it is
`InvalidSignatureShare` (the ordered culprit list — the only
protocol-structured payload) or one of the three wrapper variants
`InvalidSignature`, `DeserializationError`,
`SPPOutputDeserializationError`; the remaining eleven kinds carry none. -/
theorem frost_error_payload_classification (e : FROSTError) :
    e.hasPayload = true ↔
      (e.kind = .invalidSignatureShare ∨ e.kind = .invalidSignature ∨
       e.kind = .deserializationError ∨ e.kind = .sppOutputDeserializationError) := by
  cases e <;> simp [FROSTError.hasPayload, FROSTError.kind]

/-- Claim C1, counterexample: the second of two successive `sign`
invocations on the same nonce pair (the `benchmark_frost` round-2 loop with
`k = 2`) succeeds instead of failing. -/
theorem sign_second_invocation_succeeds :
    ((benchRound2 2).getD 1 (.error .emptySigningPackages)).isOk = true := by
  decide

/-- Claim C1, amended: `sign` borrows the nonce pair
(`&all_signing_nonces[i]` in the tests and benchmarks) instead of consuming
it by value, so re-invocation on the same `NoncePair` is not rejected: every
one of `k` successive invocations with the same nonce pair succeeds, as
exercised by `benchmark_frost`'s round-2 loop. -/
theorem sign_nonce_reuse_not_rejected (k : Nat) :
    (benchRound2 k).all (fun r => r.isOk) = true := by
  have hOk : (sign skW ctxW msgW sppW commsW noncesW).isOk = true := by decide
  simp only [benchRound2, List.all_eq_true, List.mem_map]
  rintro r ⟨i, hi, rfl⟩
  exact hOk

end Olaf

